import Mathlib

namespace ImportPipeline

/-- JavaScript runtime values, as far as the import pipeline observes them.
Numbers are modelled as rationals (a JSON document cannot denote NaN or an
infinity, and no claim depends on floating-point rounding). Objects are
association lists of string keys. `protoMember name` is the value inherited
from Object.prototype under `name` (a native function such as toString, or
Object.prototype itself for __proto__): it is truthy and never strictly equal
to a primitive; it arises only from a bracket lookup on the
SUPPORTED_FIELD_TYPES object literal with a prototype-member key. -/
inductive JsVal where
  | null
  | undefined
  | bool (b : Bool)
  | num (q : Rat)
  | str (s : String)
  | arr (elems : List JsVal)
  | obj (props : List (String × JsVal))
  | protoMember (name : String)

/-- JavaScript truthiness. -/
def truthy : JsVal → Bool
  | .null => false
  | .undefined => false
  | .bool b => b
  | .num q => q != 0
  | .str s => s != ""
  | .arr _ => true
  | .obj _ => true
  | .protoMember _ => true

/-- The result of the JavaScript `typeof` operator (note `typeof null` is
"object"). Inherited prototype members are native functions, typeof
"function"; the __proto__ accessor result is an object, but no source path
applies typeof to an inherited member, so one tag suffices. -/
def typeofStr : JsVal → String
  | .null => "object"
  | .undefined => "undefined"
  | .bool _ => "boolean"
  | .num _ => "number"
  | .str _ => "string"
  | .arr _ => "object"
  | .obj _ => "object"
  | .protoMember _ => "function"

/-- Property read on a value that is not null/undefined: objects look the key up
(missing keys give undefined), every other receiver gives undefined. Call sites
where the receiver may be null/undefined model the TypeError explicitly.
Every key the sources read through plain property access ("title", "fields",
"id", "type", "label", "min", "validation", ...) is outside Object.prototype,
so own-key lookup is exact here; the one prototype-sensitive lookup in the
sources, `SUPPORTED_FIELD_TYPES[field.type]` with a user-controlled key, is
modelled separately by `tableLookup`. -/
def getProp : JsVal → String → JsVal
  | .obj props, k =>
    match props.find? (fun p => p.1 == k) with
    | some p => p.2
    | none => .undefined
  | _, _ => .undefined

/-- JavaScript strict equality `===`. Every use in the sources compares against a
primitive literal, so reference comparison of objects/arrays never arises and is
modelled as false; two lookups of the same inherited prototype member yield the
same function object, hence compare equal. -/
def jsStrictEq : JsVal → JsVal → Bool
  | .null, .null => true
  | .undefined, .undefined => true
  | .bool a, .bool b => a == b
  | .num a, .num b => a == b
  | .str a, .str b => a == b
  | .protoMember a, .protoMember b => a == b
  | _, _ => false

/-- Whether a value is null or undefined (the values `??` coalesces over and
plain property access throws on). -/
def nullish (v : JsVal) : Bool := jsStrictEq v .null || jsStrictEq v .undefined

/-- `Number.isInteger`. -/
def jsIsInteger : JsVal → Bool
  | .num q => q.den == 1
  | _ => false

/-- `Array.isArray`. -/
def isArr : JsVal → Bool
  | .arr _ => true
  | _ => false

def isWsChar (c : Char) : Bool :=
  c == ' ' || c == '\t' || c == '\n' || c == '\r'

def trimChars (cs : List Char) : List Char :=
  ((cs.dropWhile isWsChar).reverse.dropWhile isWsChar).reverse

/-- `String.prototype.trim` (kernel-reducible model over the character list). -/
def jsTrim (s : String) : String :=
  String.mk (trimChars s.data)

def chPre : List Char → List Char → Bool
  | [], _ => true
  | _ :: _, [] => false
  | a :: as, b :: bs => a == b && chPre as bs

def chSub (needle : List Char) : List Char → Bool
  | [] => chPre needle []
  | b :: bs => chPre needle (b :: bs) || chSub needle bs

/-- `String.prototype.includes`. -/
def containsSub (s sub : String) : Bool :=
  chSub sub.data s.data

def digitsToNatAux : List Char → Nat → Option Nat
  | [], acc => some acc
  | c :: cs, acc =>
    if c.isDigit then digitsToNatAux cs (acc * 10 + (c.toNat - 48)) else none

def digitsToNat : List Char → Option Nat
  | [] => none
  | c :: cs => digitsToNatAux (c :: cs) 0

def splitDot : List Char → List Char × Option (List Char)
  | [] => ([], none)
  | '.' :: rest => ([], some rest)
  | c :: rest =>
    let p := splitDot rest
    (c :: p.1, p.2)

/-- JavaScript string-to-number conversion, approximately: decimal integers and
decimal fractions; the empty (or all-whitespace) string is 0; anything else is
NaN (`none`). Hexadecimal and exponent forms are not modelled — no table key or
claim involves them, and a miss yields NaN exactly as for any unparsable text. -/
def strToNumber (s : String) : Option Rat :=
  let cs := trimChars s.data
  match cs with
  | [] => some 0
  | _ =>
    let sg : Rat × List Char :=
      match cs with
      | '-' :: rest => (-1, rest)
      | '+' :: rest => (1, rest)
      | _ => (1, cs)
    let p := splitDot sg.2
    match p.2 with
    | none =>
      match digitsToNat p.1 with
      | some n => some (sg.1 * (n : Rat))
      | none => none
    | some frac =>
      match digitsToNat p.1, digitsToNat frac with
      | some n, some m => some (sg.1 * ((n : Rat) + (m : Rat) / ((10 : Rat) ^ frac.length)))
      | _, _ => none

def ratKey (q : Rat) : String :=
  if q.den == 1 then toString q.num else toString q.num ++ "/" ++ toString q.den

mutual

/-- JavaScript ToString as used for property keys and template literals.
Number rendering is approximate (no rendering of a number ever coincides with a
field-type table key, so lookup behaviour is unaffected). -/
def jsToPropKey : JsVal → String
  | .null => "null"
  | .undefined => "undefined"
  | .bool true => "true"
  | .bool false => "false"
  | .num q => ratKey q
  | .str s => s
  | .arr xs => jsElemsKey xs
  | .obj _ => "[object Object]"
  | .protoMember name => "function " ++ name ++ "() \x7b [native code] \x7d"

/-- `Array.prototype.join(",")` semantics: null/undefined elements render empty. -/
def jsElemsKey : List JsVal → String
  | [] => ""
  | [x] =>
    match x with
    | .null => ""
    | .undefined => ""
    | v => jsToPropKey v
  | x :: xs =>
    (match x with
     | .null => ""
     | .undefined => ""
     | v => jsToPropKey v) ++ "," ++ jsElemsKey xs

end

/-- JavaScript ToNumber; `none` is NaN. -/
def toNumber : JsVal → Option Rat
  | .null => some 0
  | .undefined => none
  | .bool b => some (if b then 1 else 0)
  | .num q => some q
  | .str s => strToNumber s
  | .arr xs => strToNumber (jsElemsKey xs)
  | .obj _ => none
  | .protoMember _ => none

/-- JavaScript `<`: two strings compare lexicographically, otherwise both sides
go through ToNumber and any NaN makes the comparison false. -/
def jsLt (a b : JsVal) : Bool :=
  match a, b with
  | .str s1, .str s2 => decide (s1 < s2)
  | _, _ =>
    match toNumber a, toNumber b with
    | some x, some y => decide (x < y)
    | _, _ => false

/-- JavaScript `>=`: the negation of `<` except that NaN also makes it false. -/
def jsGe (a b : JsVal) : Bool :=
  match a, b with
  | .str s1, .str s2 => !(decide (s1 < s2))
  | _, _ =>
    match toNumber a, toNumber b with
    | some x, some y => decide (y ≤ x)
    | _, _ => false

/-- Reading `.length`: arrays and strings report their length; on plain objects
it is an ordinary property; otherwise undefined. -/
def getLength : JsVal → JsVal
  | .arr xs => .num (xs.length : Rat)
  | .str s => .num (s.length : Rat)
  | .obj props => getProp (.obj props) "length"
  | _ => .undefined

/-- `emails?.[0]`: optional chaining on null/undefined, index 0 otherwise. -/
def jsIndex0 : JsVal → JsVal
  | .null => .undefined
  | .undefined => .undefined
  | .arr [] => .undefined
  | .arr (x :: _) => x
  | .str s =>
    match s.data with
    | [] => .undefined
    | c :: _ => .str (String.mk [c])
  | .obj props => getProp (.obj props) "0"
  | _ => .undefined

def joinComma : List String → String
  | [] => ""
  | [x] => x
  | x :: xs => x ++ ", " ++ joinComma xs

/-- The fixed import-type to internal-type table (`SUPPORTED_FIELD_TYPES`),
in source order. -/
def SUPPORTED_FIELD_TYPES : List (String × String) :=
  [("text", "text"), ("short_text", "text"), ("email", "email"),
   ("textarea", "textarea"), ("long_text", "textarea"), ("number", "number"),
   ("date", "date"), ("time", "time"), ("phone", "phone"), ("file", "file"),
   ("signature", "signature"), ("rating", "rating"), ("slider", "slider"),
   ("tags", "tags"), ("address", "address"), ("link", "link"),
   ("radio", "radio"), ("select", "select"), ("checkbox", "checkbox"),
   ("checkboxes", "checkbox"), ("multi_select", "select"),
   ("section", "statement"), ("statement", "statement"), ("poll", "poll"),
   ("scheduler", "scheduler"), ("social", "social")]

/-- The member names every plain object literal inherits from
Object.prototype. A bracket lookup on SUPPORTED_FIELD_TYPES with one of these
keys walks the prototype chain and yields the inherited member (truthy)
instead of undefined. -/
def OBJECT_PROTOTYPE_MEMBERS : List String :=
  ["constructor", "hasOwnProperty", "isPrototypeOf", "propertyIsEnumerable",
   "toLocaleString", "toString", "valueOf", "__defineGetter__",
   "__defineSetter__", "__lookupGetter__", "__lookupSetter__", "__proto__"]

/-- `SUPPORTED_FIELD_TYPES[key]` as JavaScript evaluates it on the object
literal: an own key hits the table; otherwise the lookup walks the prototype
chain, so an Object.prototype member name yields the inherited member, and
only a genuine miss is undefined. -/
def tableLookup (key : String) : JsVal :=
  match SUPPORTED_FIELD_TYPES.lookup key with
  | some internal => .str internal
  | none =>
    if OBJECT_PROTOTYPE_MEMBERS.contains key then .protoMember key
    else .undefined

/-- `JsonSchemaValidator.mapFieldType`: `SUPPORTED_FIELD_TYPES[importType] || importType`.
A table hit returns the internal name; a prototype-member key returns the
truthy inherited member, so the `|| importType` fallback never engages; only a
genuine miss returns the import type unchanged. -/
def mapFieldType (importType : String) : JsVal :=
  let hit := tableLookup importType
  if truthy hit then hit else .str importType

/-- The call `JsonSchemaValidator.mapFieldType(importedField.type)` on the raw
runtime value: JavaScript stringifies a non-string property key for the
bracket lookup, and the `|| importType` fallback returns the original value on
a genuine miss. -/
def jsMapFieldType (v : JsVal) : JsVal :=
  match v with
  | .str s => mapFieldType s
  | w =>
    let hit := tableLookup (jsToPropKey w)
    if truthy hit then hit else w

inductive Severity where
  | error
  | warning
deriving DecidableEq, Repr

structure ValidationError where
  path : String
  message : String
  severity : Severity
deriving DecidableEq, Repr

/-- The validator's two append-only accumulators (`this.errors`, `this.warnings`). -/
structure VState where
  errors : List ValidationError
  warnings : List ValidationError
deriving DecidableEq, Repr

/-- `addError`: the severity decides which accumulator receives the entry
(every call site in the sources passes 'error'). -/
def addError (path message : String) (severity : Severity) (st : VState) : VState :=
  if severity = .error then
    { st with errors := st.errors ++ [⟨path, message, severity⟩] }
  else
    { st with warnings := st.warnings ++ [⟨path, message, severity⟩] }

/-- `addWarning`. -/
def addWarning (path message : String) (st : VState) : VState :=
  { st with warnings := st.warnings ++ [⟨path, message, .warning⟩] }

/-- The pervasive `if (cond) this.addError(path, msg, 'error')` step. -/
def errIf (c : Bool) (path message : String) (st : VState) : VState :=
  if c then addError path message .error st else st

/-- `!v || typeof v !== 'string' || v.trim() === ''`. -/
def strBlankOrMissing : JsVal → Bool
  | .str s => jsTrim s == ""
  | _ => true

/-- `!v || typeof v !== 'string'` (no trim), as in the option id/label checks. -/
def strFalsyOrNonString : JsVal → Bool
  | .str s => s == ""
  | _ => true

/-- `v && typeof v !== 'string'`. -/
def truthyNonString (v : JsVal) : Bool :=
  truthy v && typeofStr v != "string"

def optionFieldTypes : List String :=
  ["radio", "select", "checkbox", "checkboxes", "multi_select"]

/-- `optionFields.includes(fieldType)` on the raw type value. -/
def isOptionFieldType : JsVal → Bool
  | .str s => optionFieldTypes.contains s
  | _ => false

def titleRequiredMsg : String := "Form title is required and must be a non-empty string"
def fieldIdRequiredMsg : String := "Field ID is required and must be a non-empty string"
def fieldTypeRequiredMsg : String := "Field type is required and must be a string"
def fieldLabelRequiredMsg : String := "Field label is required and must be a non-empty string"
def sectionLabelWarnMsg : String := "Section fields should have descriptive labels"
def atLeastOneFieldMsg : String := "Form must have at least one field"
def parseFailMsg : String := "Invalid JSON format. Please check your JSON syntax."

def unsupportedTypeMsg (t : String) : String :=
  "Unsupported field type: " ++ t ++ ". Supported types: " ++
    joinComma (SUPPORTED_FIELD_TYPES.map (fun p => p.1))

/-- The `field.type` checks: required non-empty string, then the truthiness
test `!SUPPORTED_FIELD_TYPES[field.type]` — which, through the prototype
chain, also accepts Object.prototype member names as "supported". -/
def typeCheckStep (field : JsVal) (path : String) (st : VState) : VState :=
  match getProp field "type" with
  | .str s =>
    if s == "" then addError (path ++ ".type") fieldTypeRequiredMsg .error st
    else if truthy (tableLookup s) then st
    else addError (path ++ ".type") (unsupportedTypeMsg s) .error st
  | _ => addError (path ++ ".type") fieldTypeRequiredMsg .error st

/-- One option of an option-bearing field: strings must be non-blank; objects
(and arrays, which also have typeof 'object') need string id and label; null and
other primitives are rejected as a whole. -/
def optionCheck (path : String) (idx : Nat) (opt : JsVal) (st : VState) : VState :=
  match opt with
  | .str s =>
    errIf (jsTrim s == "") (path ++ ".options[" ++ toString idx ++ "]")
      "Option cannot be empty" st
  | .obj _ =>
    let st := errIf (strFalsyOrNonString (getProp opt "id"))
      (path ++ ".options[" ++ toString idx ++ "].id")
      "Option ID is required and must be a string" st
    errIf (strFalsyOrNonString (getProp opt "label"))
      (path ++ ".options[" ++ toString idx ++ "].label")
      "Option label is required and must be a string" st
  | .arr _ =>
    let st := errIf (strFalsyOrNonString (getProp opt "id"))
      (path ++ ".options[" ++ toString idx ++ "].id")
      "Option ID is required and must be a string" st
    errIf (strFalsyOrNonString (getProp opt "label"))
      (path ++ ".options[" ++ toString idx ++ "].label")
      "Option label is required and must be a string" st
  | _ =>
    addError (path ++ ".options[" ++ toString idx ++ "]")
      "Option must be a string or object with id and label" .error st

def optionLoop (path : String) (idx : Nat) (opts : List JsVal) (st : VState) : VState :=
  match opts with
  | [] => st
  | o :: rest => optionLoop path (idx + 1) rest (optionCheck path idx o st)

/-- The option-bearing block of `validateFieldTypeSpecific`: the options array
checks followed by the checkboxes/multi_select selection constraints. -/
def optionsChecks (field : JsVal) (path : String) (fieldType : JsVal) (st : VState) : VState :=
  if isOptionFieldType fieldType then
    let st :=
      match getProp field "options" with
      | .arr opts =>
        if opts.isEmpty then
          addError (path ++ ".options")
            ("Field type " ++ jsToPropKey fieldType ++ " must have at least one option")
            .error st
        else optionLoop path 0 opts st
      | _ =>
        addError (path ++ ".options")
          ("Field type " ++ jsToPropKey fieldType ++ " requires an options array")
          .error st
    if jsStrictEq fieldType (.str "checkboxes") || jsStrictEq fieldType (.str "multi_select") then
      let minS := getProp field "minSelections"
      let maxS := getProp field "maxSelections"
      let st := errIf (!(jsStrictEq minS .undefined) && (!(jsIsInteger minS) || jsLt minS (.num 0)))
        (path ++ ".minSelections") "minSelections must be a non-negative integer" st
      if !(jsStrictEq maxS .undefined) then
        let st := errIf (!(jsIsInteger maxS) || jsLt maxS (.num 1))
          (path ++ ".maxSelections") "maxSelections must be a positive integer" st
        errIf (!(jsStrictEq minS .undefined) && jsLt maxS minS)
          (path ++ ".maxSelections") "maxSelections cannot be less than minSelections" st
      else st
    else st
  else st

/-- The number/slider block of `validateFieldTypeSpecific`. -/
def numberChecks (field : JsVal) (path : String) (fieldType : JsVal) (st : VState) : VState :=
  if jsStrictEq fieldType (.str "number") || jsStrictEq fieldType (.str "slider") then
    let mn := getProp field "min"
    let mx := getProp field "max"
    let stp := getProp field "step"
    let st := errIf (!(jsStrictEq mn .undefined) && typeofStr mn != "number")
      (path ++ ".min") "min value must be a number" st
    let st := errIf (!(jsStrictEq mx .undefined) && typeofStr mx != "number")
      (path ++ ".max") "max value must be a number" st
    let st := errIf (!(jsStrictEq stp .undefined) && typeofStr stp != "number")
      (path ++ ".step") "step value must be a number" st
    errIf (!(jsStrictEq mn .undefined) && !(jsStrictEq mx .undefined) && jsGe mn mx)
      (path ++ ".min") "min value must be less than max value" st
  else st

/-- The section/statement label advisory: `!field.label || field.label.trim() === ''`.
A truthy non-string label has no `trim` method, so that access throws a
TypeError, modelled by the `Except.error` carrying the state at the throw. -/
def sectionCheck (field : JsVal) (path : String) (fieldType : JsVal) (st : VState) :
    Except VState VState :=
  if jsStrictEq fieldType (.str "section") || jsStrictEq fieldType (.str "statement") then
    let lbl := getProp field "label"
    if !(truthy lbl) then .ok (addWarning (path ++ ".label") sectionLabelWarnMsg st)
    else
      match lbl with
      | .str s =>
        if jsTrim s == "" then .ok (addWarning (path ++ ".label") sectionLabelWarnMsg st)
        else .ok st
      | _ => .error st
  else .ok st

/-- `validateFieldValidation`. -/
def validateFieldValidation (validation : JsVal) (path : String) (st : VState) : VState :=
  if typeofStr validation != "object" || jsStrictEq validation .null then
    addError path "Validation must be an object" .error st
  else
    let minL := getProp validation "minLength"
    let maxL := getProp validation "maxLength"
    let st := errIf (!(jsStrictEq minL .undefined) && (!(jsIsInteger minL) || jsLt minL (.num 0)))
      (path ++ ".minLength") "minLength must be a non-negative integer" st
    let st := errIf (!(jsStrictEq maxL .undefined) && (!(jsIsInteger maxL) || jsLt maxL (.num 1)))
      (path ++ ".maxLength") "maxLength must be a positive integer" st
    let st := errIf (!(jsStrictEq minL .undefined) && !(jsStrictEq maxL .undefined) && jsGe minL maxL)
      (path ++ ".minLength") "minLength must be less than maxLength" st
    errIf (truthy (getProp validation "pattern") && typeofStr (getProp validation "pattern") != "string")
      (path ++ ".pattern") "Pattern must be a string" st

/-- `validateFieldTypeSpecific`, in source order: option checks, number checks,
section/statement advisory (which can throw), then the nested validation object. -/
def validateFieldTypeSpecific (field : JsVal) (path : String) (st : VState) :
    Except VState VState :=
  let fieldType := getProp field "type"
  let st := optionsChecks field path fieldType st
  let st := numberChecks field path fieldType st
  match sectionCheck field path fieldType st with
  | .error st => .error st
  | .ok st =>
    .ok (if truthy (getProp field "validation") then
           validateFieldValidation (getProp field "validation") (path ++ ".validation") st
         else st)

/-- The id/type/label/required/placeholder/helpText/description checks of
`validateField`, in source order. -/
def preFieldChecks (field : JsVal) (path : String) (st : VState) : VState :=
  let st := errIf (strBlankOrMissing (getProp field "id")) (path ++ ".id") fieldIdRequiredMsg st
  let st := typeCheckStep field path st
  let st := errIf (strBlankOrMissing (getProp field "label")) (path ++ ".label") fieldLabelRequiredMsg st
  let st := errIf (!(jsStrictEq (getProp field "required") .undefined) && typeofStr (getProp field "required") != "boolean")
    (path ++ ".required") "Field required must be a boolean" st
  let st := errIf (truthyNonString (getProp field "placeholder"))
    (path ++ ".placeholder") "Field placeholder must be a string" st
  let st := errIf (truthyNonString (getProp field "helpText"))
    (path ++ ".helpText") "Field helpText must be a string" st
  errIf (truthyNonString (getProp field "description"))
    (path ++ ".description") "Field description must be a string" st

/-- `validateField`. The guard `!field || typeof field !== 'object'` rejects
exactly everything but objects and arrays (arrays have typeof 'object' and are
truthy, null is falsy). -/
def validateField (field : JsVal) (path : String) (st : VState) : Except VState VState :=
  match field with
  | .obj _ => validateFieldTypeSpecific field path (preFieldChecks field path st)
  | .arr _ => validateFieldTypeSpecific field path (preFieldChecks field path st)
  | _ => .ok (addError path "Field must be an object" .error st)

/-- `data.fields.forEach(...)`: a throw inside one field propagates with the
state accumulated so far. -/
def validateFieldsLoop (fields : List JsVal) (i : Nat) (st : VState) : Except VState VState :=
  match fields with
  | [] => .ok st
  | f :: rest =>
    match validateField f ("fields[" ++ toString i ++ "]") st with
    | .error st => .error st
    | .ok st => validateFieldsLoop rest (i + 1) st

/-- The submission sub-check of `validateSettings`. -/
def submissionCheck (sub : JsVal) (path : String) (st : VState) : VState :=
  if typeofStr sub != "object" || jsStrictEq sub .null then
    addError (path ++ ".submission") "Submission settings must be an object" .error st
  else
    let ru := getProp sub "redirectUrl"
    let st := errIf (!(jsStrictEq ru .undefined) && !(jsStrictEq ru .null) && typeofStr ru != "string")
      (path ++ ".submission.redirectUrl") "Redirect URL must be a string or null" st
    errIf (truthy (getProp sub "successMessage") && typeofStr (getProp sub "successMessage") != "string")
      (path ++ ".submission.successMessage") "Success message must be a string" st

def emailsLoop (path : String) (idx : Nat) (emails : List JsVal) (st : VState) : VState :=
  match emails with
  | [] => st
  | e :: rest =>
    emailsLoop path (idx + 1) rest
      (errIf (typeofStr e != "string")
        (path ++ ".notifications.emails[" ++ toString idx ++ "]")
        "Email must be a string" st)

/-- The notifications sub-check of `validateSettings`. -/
def notificationsCheck (notif : JsVal) (path : String) (st : VState) : VState :=
  if typeofStr notif != "object" || jsStrictEq notif .null then
    addError (path ++ ".notifications") "Notifications settings must be an object" .error st
  else
    let se := getProp notif "sendEmail"
    let st := errIf (!(jsStrictEq se .undefined) && typeofStr se != "boolean")
      (path ++ ".notifications.sendEmail") "sendEmail must be a boolean" st
    let em := getProp notif "emails"
    if truthy em && !(isArr em) then
      addError (path ++ ".notifications.emails") "emails must be an array" .error st
    else if truthy em then
      match em with
      | .arr xs => emailsLoop path 0 xs st
      | _ => st
    else st

/-- `validateSettings`. -/
def validateSettings (settings : JsVal) (path : String) (st : VState) : VState :=
  if typeofStr settings != "object" || jsStrictEq settings .null then
    addError path "Settings must be an object" .error st
  else
    let st := errIf (truthy (getProp settings "theme") && typeofStr (getProp settings "theme") != "string")
      (path ++ ".theme") "Theme must be a string" st
    let st := errIf (truthy (getProp settings "language") && typeofStr (getProp settings "language") != "string")
      (path ++ ".language") "Language must be a string" st
    let st := if truthy (getProp settings "submission") then
        submissionCheck (getProp settings "submission") path st
      else st
    if truthy (getProp settings "notifications") then
      notificationsCheck (getProp settings "notifications") path st
    else st

/-- `validateFormSchema`. Reading `data.title` on null/undefined throws a
TypeError, modelled as `Except.error` carrying the (still empty) state; a
non-array `fields` records one error and returns before field and settings
validation. -/
def validateFormSchema (data : JsVal) (st : VState) : Except VState VState :=
  if nullish data then .error st
  else
    let st := errIf (strBlankOrMissing (getProp data "title")) "title" titleRequiredMsg st
    let st := errIf (truthyNonString (getProp data "description"))
      "description" "Form description must be a string" st
    match getProp data "fields" with
    | .arr fieldsArr =>
      let st := errIf fieldsArr.isEmpty "fields" atLeastOneFieldMsg st
      match validateFieldsLoop fieldsArr 0 st with
      | .error st => .error st
      | .ok st =>
        .ok (if truthy (getProp data "settings") then
               validateSettings (getProp data "settings") "settings" st
             else st)
    | _ => .ok (addError "fields" "Fields must be an array" .error st)

def fixableMessages : List String :=
  ["Field required must be a boolean", "Theme must be a string",
   "Language must be a string", "Success message must be a string"]

/-- `isFixableError`: the message contains one of the fixed substrings. -/
def isFixableError (e : ValidationError) : Bool :=
  fixableMessages.any (fun m => containsSub e.message m)

structure ValidationResult where
  isValid : Bool
  errors : List ValidationError
  warnings : List ValidationError
  fixableErrors : List ValidationError
deriving DecidableEq, Repr

/-- The try/catch body of `validate` applied to an already-parsed value: on a
throw the catch appends the root parse error to the accumulators as they stood
and reports no fixable errors. -/
def validateCore (d : JsVal) : ValidationResult :=
  match validateFormSchema d ⟨[], []⟩ with
  | .ok st => ⟨st.errors.isEmpty, st.errors, st.warnings, st.errors.filter isFixableError⟩
  | .error st =>
    let st := addError "root" parseFailMsg .error st
    ⟨false, st.errors, st.warnings, []⟩

/-- The input domain of `validate`/`transformJsonToFormSchema`. `JSON.parse` is
a platform primitive outside this repository, so a string input is represented
together with its parse outcome: `.jstr s none` is a string on which
`JSON.parse` throws, `.jstr s (some v)` one that parses to `v`. `.jval v`
represents a non-string input value passed through unparsed. -/
inductive JsonInput where
  | jstr (s : String) (parsed : Option JsVal)
  | jval (v : JsVal)

/-- `JsonSchemaValidator.validate`. -/
def validate (input : JsonInput) : ValidationResult :=
  match input with
  | .jstr _ none =>
    let st := addError "root" parseFailMsg .error ⟨[], []⟩
    ⟨false, st.errors, st.warnings, []⟩
  | .jstr _ (some d) => validateCore d
  | .jval v => validateCore v

/-- `FormField['validation']` as populated by `transformValidation`: the raw
imported values are carried through unchanged, so the payloads stay `JsVal`. -/
structure FieldValidation where
  minLength : Option JsVal
  maxLength : Option JsVal
  min : Option JsVal
  max : Option JsVal
  pattern : Option JsVal
  requiredMessage : Option String

def emptyFieldValidation : FieldValidation :=
  ⟨none, none, none, none, none, none⟩

/-- `FormField['settings']` as populated by `transformFieldSettings`. -/
structure FieldSettings where
  helpText : Option JsVal
  defaultValue : Option JsVal
  rows : Option JsVal
  min : Option JsVal
  max : Option JsVal
  step : Option JsVal
  allowMultiple : Option JsVal
  statementHeading : Option JsVal
  statementDescription : Option JsVal
  statementAlign : Option JsVal
  statementSize : Option JsVal
  starCount : Option JsVal
  icon : Option JsVal
  color : Option JsVal
  maxTags : Option JsVal
  allowDuplicates : Option JsVal

def emptyFieldSettings : FieldSettings :=
  ⟨none, none, none, none, none, none, none, none,
   none, none, none, none, none, none, none, none⟩

/-- The internal `FormField` as the transformer builds it. TypeScript types are
erased at runtime, so fields that receive raw imported values stay `JsVal`. -/
structure FormField where
  id : JsVal
  type : JsVal
  label : JsVal
  description : JsVal
  placeholder : JsVal
  required : JsVal
  validation : FieldValidation
  settings : FieldSettings
  options : Option (List JsVal)

/-- One option inside `transformOptions`: strings pass, objects yield their
truthy `label`, anything else becomes the literal "Option". `typeof null` is
'object', so a null option throws on the `option.label` access. -/
def transformOption (opt : JsVal) : Except String JsVal :=
  if typeofStr opt == "string" then .ok opt
  else if typeofStr opt == "object" then
    match opt with
    | .null => .error "Cannot read properties of null (reading label)"
    | _ => if truthy (getProp opt "label") then .ok (getProp opt "label") else .ok (.str "Option")
  else .ok (.str "Option")

/-- `transformOptions`: falsy or zero-length input yields undefined; an array is
mapped; a truthy non-array has no `.map` and throws. -/
def transformOptions (importedOptions : JsVal) : Except String (Option (List JsVal)) :=
  if !(truthy importedOptions) || jsStrictEq (getLength importedOptions) (.num 0) then
    .ok none
  else
    match importedOptions with
    | .arr xs =>
      match xs.mapM transformOption with
      | .ok ys => .ok (some ys)
      | .error e => .error e
    | _ => .error "importedOptions.map is not a function"

/-- `transformValidation`. The five keys of the nested `validation` object are
copied under a truthiness test (`if (importedField.validation?.minLength)` and
friends); root-level `min`/`max` then override under a `!== undefined` test;
a truthy `required` sets the default required message. -/
def transformValidation (importedField : JsVal) : FieldValidation :=
  let vobj := getProp importedField "validation"
  let v := emptyFieldValidation
  let v := if truthy (getProp vobj "minLength") then
      { v with minLength := some (getProp vobj "minLength") } else v
  let v := if truthy (getProp vobj "maxLength") then
      { v with maxLength := some (getProp vobj "maxLength") } else v
  let v := if truthy (getProp vobj "min") then
      { v with min := some (getProp vobj "min") } else v
  let v := if truthy (getProp vobj "max") then
      { v with max := some (getProp vobj "max") } else v
  let v := if truthy (getProp vobj "pattern") then
      { v with pattern := some (getProp vobj "pattern") } else v
  let v := if !(jsStrictEq (getProp importedField "min") .undefined) then
      { v with min := some (getProp importedField "min") } else v
  let v := if !(jsStrictEq (getProp importedField "max") .undefined) then
      { v with max := some (getProp importedField "max") } else v
  if truthy (getProp importedField "required") then
    { v with requiredMessage := some "This field is required" } else v

/-- The type-independent prefix of `transformFieldSettings`: helpText, then
`defaultValue`, then `defaultChecked` (overwriting `defaultValue`). -/
def preTypeSettings (importedField : JsVal) : FieldSettings :=
  let s := emptyFieldSettings
  let s := if truthy (getProp importedField "helpText") then
      { s with helpText := some (getProp importedField "helpText") } else s
  let s := if !(jsStrictEq (getProp importedField "defaultValue") .undefined) then
      { s with defaultValue := some (getProp importedField "defaultValue") } else s
  if !(jsStrictEq (getProp importedField "defaultChecked") .undefined) then
    { s with defaultValue := some (getProp importedField "defaultChecked") } else s

/-- `transformFieldSettings`: the type-independent prefix followed by the
switch on the resolved type — inside which the slider branch re-applies
`defaultValue`. -/
def transformFieldSettings (importedField fieldType : JsVal) : FieldSettings :=
  let s := preTypeSettings importedField
  if jsStrictEq fieldType (.str "textarea") then
    if truthy (getProp importedField "rows") then
      { s with rows := some (getProp importedField "rows") } else s
  else if jsStrictEq fieldType (.str "number") || jsStrictEq fieldType (.str "slider") then
    let s := if !(jsStrictEq (getProp importedField "min") .undefined) then
        { s with min := some (getProp importedField "min") } else s
    let s := if !(jsStrictEq (getProp importedField "max") .undefined) then
        { s with max := some (getProp importedField "max") } else s
    let s := if !(jsStrictEq (getProp importedField "step") .undefined) then
        { s with step := some (getProp importedField "step") } else s
    if jsStrictEq fieldType (.str "slider") &&
       !(jsStrictEq (getProp importedField "defaultValue") .undefined) then
      { s with defaultValue := some (getProp importedField "defaultValue") } else s
  else if jsStrictEq fieldType (.str "checkbox") then
    let s := if !(jsStrictEq (getProp importedField "minSelections") .undefined) then
        { s with min := some (getProp importedField "minSelections") } else s
    if !(jsStrictEq (getProp importedField "maxSelections") .undefined) then
      { s with max := some (getProp importedField "maxSelections") } else s
  else if jsStrictEq fieldType (.str "select") then
    if jsStrictEq (getProp importedField "type") (.str "multi_select") then
      { s with allowMultiple := some (.bool true) } else s
  else if jsStrictEq fieldType (.str "statement") then
    let s := { s with statementHeading := some (getProp importedField "label") }
    let s := if truthy (getProp importedField "description") then
        { s with statementDescription := some (getProp importedField "description") } else s
    { s with statementAlign := some (.str "left"), statementSize := some (.str "md") }
  else if jsStrictEq fieldType (.str "rating") then
    { s with starCount := some (.num 5), icon := some (.str "star"),
             color := some (.str "#fbbf24") }
  else if jsStrictEq fieldType (.str "tags") then
    { s with maxTags := some (.num 10), allowDuplicates := some (.bool false) }
  else s

/-- `transformField`. Reading `importedField.id` on null/undefined throws; the
field id is the imported one when truthy, otherwise the generated id (injected
here as `freshId`, since the source draws it from the clock and `Math.random`);
options attach only when non-empty. -/
def transformField (freshId : String) (importedField : JsVal) : Except String FormField :=
  if nullish importedField then .error "Cannot read properties of null (reading id)"
  else
    match transformOptions (getProp importedField "options") with
    | .error e => .error e
    | .ok options =>
      let mappedType := jsMapFieldType (getProp importedField "type")
      let field : FormField :=
        { id := if truthy (getProp importedField "id") then getProp importedField "id"
                else .str freshId
          type := mappedType
          label := getProp importedField "label"
          description := getProp importedField "description"
          placeholder := getProp importedField "placeholder"
          required := if nullish (getProp importedField "required") then .bool false
                      else getProp importedField "required"
          validation := transformValidation importedField
          settings := transformFieldSettings importedField mappedType
          options := none }
      .ok (match options with
           | some xs => if xs.length > 0 then { field with options := some xs } else field
           | none => field)

structure NotificationSettings where
  enabled : JsVal
  email : JsVal
  subject : String
  message : String

structure FormSettings where
  title : JsVal
  description : JsVal
  themePrimaryColor : Option String
  successMessage : Option JsVal
  redirectUrl : Option JsVal
  notifications : Option NotificationSettings
  rtl : Option Bool

structure BlockSettings where
  showStepNumber : Bool
  layout : String
  spacing : String

structure FormBlock where
  id : String
  title : String
  description : String
  fields : List FormField
  settings : BlockSettings

structure FormSchema where
  blocks : List FormBlock
  fields : List FormField
  settings : FormSettings
  logic : List Unit

/-- Modelled from the spec: `createDefaultFormSchema` lives in `@/lib/forms`,
outside the provided sources. Per the spec it produces a default schema seeded
with the given title and description (multi-step forced off) whose `logic` is
always empty; settings beyond title/description are opaque defaults, modelled
as absent. -/
def createDefaultFormSchema (title description : JsVal) : FormSchema :=
  { blocks := []
    fields := []
    settings := { title := title, description := description,
                  themePrimaryColor := none, successMessage := none,
                  redirectUrl := none, notifications := none, rtl := none }
    logic := [] }

/-- `transformSettings`. -/
def transformSettings (importedSettings : JsVal) (baseSettings : FormSettings) : FormSettings :=
  let s := baseSettings
  let s := if truthy (getProp importedSettings "theme") then
      let c := if jsStrictEq (getProp importedSettings "theme") (.str "dark")
               then "#1f2937" else "#3b82f6"
      { s with themePrimaryColor := some c }
    else s
  let s := if truthy (getProp importedSettings "submission") then
      let sub := getProp importedSettings "submission"
      let s := if truthy (getProp sub "successMessage") then
          { s with successMessage := some (getProp sub "successMessage") } else s
      if truthy (getProp sub "redirectUrl") then
        { s with redirectUrl := some (getProp sub "redirectUrl") } else s
    else s
  let s := if truthy (getProp importedSettings "notifications") then
      let notif := getProp importedSettings "notifications"
      let enabled := if nullish (getProp notif "sendEmail") then JsVal.bool false
                     else getProp notif "sendEmail"
      let e0 := jsIndex0 (getProp notif "emails")
      let email := if truthy e0 then e0 else JsVal.str ""
      let notifSettings : NotificationSettings :=
        { enabled := enabled, email := email,
          subject := "New form submission: " ++ jsToPropKey s.title,
          message := "A new form submission has been received." }
      { s with notifications := some notifSettings }
    else s
  if truthy (getProp importedSettings "language") then
    let isRtl := match getProp importedSettings "language" with
      | .str l => ["ar", "he", "ur", "fa"].contains l
      | _ => false
    { s with rtl := some isRtl }
  else s

def mapFieldsList (fieldIds : Nat → String) (i : Nat) (fields : List JsVal) :
    Except String (List FormField) :=
  match fields with
  | [] => .ok []
  | f :: rest =>
    match transformField (fieldIds i) f with
    | .error e => .error e
    | .ok tf =>
      match mapFieldsList fieldIds (i + 1) rest with
      | .error e => .error e
      | .ok tr => .ok (tf :: tr)

/-- `importedSchema.fields.map(field => this.transformField(field))`: a
non-array has no `.map` and throws. -/
def fieldsMapStep (fieldIds : Nat → String) (importedSchema : JsVal) :
    Except String (List FormField) :=
  match getProp importedSchema "fields" with
  | .arr xs => mapFieldsList fieldIds 0 xs
  | _ => .error "importedSchema.fields.map is not a function"

/-- `createFormSchema`. Reading `.title` on null/undefined throws; block ids and
generated field ids are injected (`Date.now`/`Math.random` in the source). -/
def createFormSchema (blockId : String) (fieldIds : Nat → String) (importedSchema : JsVal) :
    Except String FormSchema :=
  if nullish importedSchema then .error "Cannot read properties of null (reading title)"
  else
    let baseSchema := createDefaultFormSchema (getProp importedSchema "title")
      (if truthy (getProp importedSchema "description") then getProp importedSchema "description"
       else .str "")
    match fieldsMapStep fieldIds importedSchema with
    | .error e => .error e
    | .ok transformedFields =>
      .ok { blocks := [{ id := blockId, title := "Main", description := "",
                         fields := transformedFields,
                         settings := { showStepNumber := false, layout := "single",
                                       spacing := "normal" } }]
            fields := transformedFields
            settings := transformSettings
              (if truthy (getProp importedSchema "settings") then getProp importedSchema "settings"
               else .obj []) baseSchema.settings
            logic := baseSchema.logic }

structure ImportTransformResult where
  success : Bool
  formSchema : Option FormSchema
  errors : List String
  warnings : List String
  validationResult : Option ValidationResult

/-- `JsonImportService.transformJsonToFormSchema`: validate, stop with the
mapped diagnostics when invalid, otherwise transform the raw input value (the
unchecked `as ImportedFormSchema` cast) with the try/catch converting any
transform-time throw into a failure result. -/
def transformJsonToFormSchema (blockId : String) (fieldIds : Nat → String)
    (input : JsonInput) : ImportTransformResult :=
  let validationResult := validate input
  if !validationResult.isValid then
    { success := false
      formSchema := none
      errors := validationResult.errors.map (fun e => e.path ++ ": " ++ e.message)
      warnings := validationResult.warnings.map (fun w => w.path ++ ": " ++ w.message)
      validationResult := some validationResult }
  else
    let jsonData := match input with
      | .jstr s _ => JsVal.str s
      | .jval v => v
    match createFormSchema blockId fieldIds jsonData with
    | .ok formSchema =>
      { success := true
        formSchema := some formSchema
        errors := []
        warnings := validationResult.warnings.map (fun w => w.path ++ ": " ++ w.message)
        validationResult := some validationResult }
    | .error msg =>
      { success := false
        formSchema := none
        errors := ["Failed to transform JSON: " ++ msg]
        warnings := []
        validationResult := none }

/-- The concrete document of the `{title:"", fields:[]}` scenario. -/
def emptyTitleEmptyFieldsDoc : JsVal := .obj [("title", .str ""), ("fields", .arr [])]

/-- A section field with a blank label inside an otherwise fully valid document. -/
def blankSectionField : JsVal :=
  .obj [("id", .str "f1"), ("type", .str "section"), ("label", .str "")]

def blankSectionDoc : JsVal :=
  .obj [("title", .str "T"), ("fields", .arr [blankSectionField])]

/-- A valid text field whose validation object carries the boundary value 0. -/
def minLengthZeroField : JsVal :=
  .obj [("id", .str "f1"), ("type", .str "text"), ("label", .str "Name"),
        ("validation", .obj [("minLength", .num 0)])]

def minLengthZeroDoc : JsVal :=
  .obj [("title", .str "T"), ("fields", .arr [minLengthZeroField])]

/-- A valid slider field carrying both defaultValue and defaultChecked. -/
def sliderBothDefaultsField : JsVal :=
  .obj [("id", .str "f1"), ("type", .str "slider"), ("label", .str "L"),
        ("defaultValue", .num 5), ("defaultChecked", .bool true)]

def sliderBothDefaultsDoc : JsVal :=
  .obj [("title", .str "T"), ("fields", .arr [sliderBothDefaultsField])]

/-- A field whose defaultValue and defaultChecked are both present, of a
non-slider type, for the amended defaultChecked-precedence claim. -/
def textBothDefaultsField : JsVal :=
  .obj [("id", .str "f2"), ("type", .str "text"), ("label", .str "L"),
        ("defaultValue", .num 1), ("defaultChecked", .bool true)]

/-- A multi_select field from the spec scenario. -/
def multiSelectField : JsVal :=
  .obj [("id", .str "p"), ("type", .str "multi_select"), ("label", .str "Pick"),
        ("options", .arr [.str "A", .str "B"])]

/-- A plain select field for the allowMultiple contrast. -/
def plainSelectField : JsVal :=
  .obj [("id", .str "q"), ("type", .str "select"), ("label", .str "Pick"),
        ("options", .arr [.str "A"])]

/-- A field with a truthy value on every copied validation key, for the amended
validation-copy claim's witness. -/
def truthyValidationField : JsVal :=
  .obj [("id", .str "f3"), ("type", .str "text"), ("label", .str "N"),
        ("validation", .obj [("minLength", .num 3), ("maxLength", .num 9),
                             ("min", .num 1), ("max", .num 7),
                             ("pattern", .str "a+")])]

/-- A field whose validation keys all carry falsy values, for the dropped
direction of the amended validation-copy claim. -/
def falsyValidationField : JsVal :=
  .obj [("id", .str "f5"), ("type", .str "text"), ("label", .str "N"),
        ("validation", .obj [("minLength", .num 0), ("maxLength", .num 0),
                             ("pattern", .str ""), ("min", .num 0),
                             ("max", .num 0)])]

/-- A valid field carrying root-level min/max besides validation.min/max: the
root values override the validation object's. -/
def rootOverrideField : JsVal :=
  .obj [("id", .str "f4"), ("type", .str "text"), ("label", .str "N"),
        ("min", .num 3), ("max", .num 4),
        ("validation", .obj [("min", .num 2), ("max", .num 9)])]

def rootOverrideDoc : JsVal :=
  .obj [("title", .str "T"), ("fields", .arr [rootOverrideField])]

/-- A one-field valid schema for the schema-assembly witness. -/
def simpleTextField : JsVal :=
  .obj [("id", .str "f1"), ("type", .str "text"), ("label", .str "Name")]

def simpleDoc : JsVal := .obj [("title", .str "T"), ("fields", .arr [simpleTextField])]

/-- The transform of `simpleTextField`. -/
def simpleTextOut : FormField :=
  ⟨.str "f1", .str "text", .str "Name", .undefined, .undefined, .bool false,
   emptyFieldValidation, emptyFieldSettings, none⟩

/-- The schema produced from `simpleDoc`. -/
def simpleSchemaOut : FormSchema :=
  { blocks := [⟨"b", "Main", "", [simpleTextOut], ⟨false, "single", "normal"⟩⟩]
    fields := [simpleTextOut]
    settings := ⟨.str "T", .str "", none, none, none, none, none⟩
    logic := [] }

/-- A field whose type string is outside the supported-type table. -/
def unsupportedTypeField : JsVal :=
  .obj [("id", .str "x"), ("type", .str "foo"), ("label", .str "L")]

/-- The transform of `unsupportedTypeField`. -/
def unsupportedTypeOut : FormField :=
  ⟨.str "x", .str "foo", .str "L", .undefined, .undefined, .bool false,
   emptyFieldValidation, emptyFieldSettings, none⟩

lemma isEmpty_append_singleton {α : Type} (xs : List α) (a : α) :
    (xs ++ [a]).isEmpty = false := by
  cases xs <;> rfl

lemma validateCore_isValid (d : JsVal) :
    (validateCore d).isValid = (validateCore d).errors.isEmpty := by
  unfold validateCore
  cases h : validateFormSchema d ⟨[], []⟩ with
  | ok st => rfl
  | error st =>
    show false = ((addError "root" parseFailMsg .error st).errors).isEmpty
    show false = (st.errors ++ [(⟨"root", parseFailMsg, .error⟩ : ValidationError)]).isEmpty
    rw [isEmpty_append_singleton]

lemma validate_isValid_isEmpty (input : JsonInput) :
    (validate input).isValid = (validate input).errors.isEmpty := by
  cases input with
  | jstr s p =>
    cases p with
    | none => rfl
    | some d => exact validateCore_isValid d
  | jval v => exact validateCore_isValid v

/-- Claim C2: for every input, the ValidationResult returned by validate has
isValid true exactly when its errors list is empty; since validity is computed
from the errors accumulator alone, the warnings list never affects it. -/
theorem validate_isValid_iff_no_errors (input : JsonInput) :
    (validate input).isValid = (validate input).errors.isEmpty :=
  validate_isValid_isEmpty input

/-- Claim C1: transformJsonToFormSchema is a total function into
ImportTransformResult (validation failures, transform-time throws and invalid
data are all converted into a result value), and on every return path success
is true exactly when a formSchema is present and the errors list is empty. -/
theorem transform_success_iff_schema_and_no_errors (blockId : String)
    (fieldIds : Nat → String) (input : JsonInput) :
    (transformJsonToFormSchema blockId fieldIds input).success =
      ((transformJsonToFormSchema blockId fieldIds input).formSchema.isSome &&
       (transformJsonToFormSchema blockId fieldIds input).errors.isEmpty) := by
  unfold transformJsonToFormSchema
  dsimp only
  split
  · rfl
  · split <;> rfl

/-- Claim C6: a string input on which JSON.parse throws yields exactly one
root-path error, no warnings, no fixable errors, and an invalid result, with no
further structural checks performed. -/
theorem parse_failure_single_root_error (s : String) :
    validate (.jstr s none) =
      ⟨false, [⟨"root", parseFailMsg, .error⟩], [], []⟩ := rfl

/-- Claim C8: on the document with an empty title and an empty fields array a
single validate call records both the title error and the at-least-one-field
error (and nothing else), and the result is invalid. -/
theorem empty_title_empty_fields_both_errors :
    validate (.jval emptyTitleEmptyFieldsDoc) =
      ⟨false, [⟨"title", titleRequiredMsg, .error⟩,
               ⟨"fields", atLeastOneFieldMsg, .error⟩], [], []⟩ := rfl

/-- Claim C3 counterexample: a document that is fully valid apart from a blank
section label is rejected — the blank label records an error at fields[0].label
(alongside the warning), so isValid is false, contradicting the claim that only
a warning is recorded and the document stays valid. -/
theorem blank_section_label_is_error :
    validate (.jval blankSectionDoc) =
      ⟨false, [⟨"fields[0].label", fieldLabelRequiredMsg, .error⟩],
       [⟨"fields[0].label", sectionLabelWarnMsg, .warning⟩], []⟩ := rfl

/-- Claim C4 counterexample, refuting "each present key is copied" twice on
valid fields: the boundary value minLength = 0 is dropped by the truthiness
guard, and a validation.min = 2 on a field with a root-level min = 3 is
replaced by the root value instead of being copied. -/
theorem minLength_zero_not_copied :
    (validate (.jval minLengthZeroDoc)).isValid = true ∧
    getProp (getProp minLengthZeroField "validation") "minLength" = .num 0 ∧
    (transformValidation minLengthZeroField).minLength = none ∧
    (validate (.jval rootOverrideDoc)).isValid = true ∧
    getProp (getProp rootOverrideField "validation") "min" = .num 2 ∧
    (transformValidation rootOverrideField).min = some (.num 3) ∧
    (transformValidation rootOverrideField).min ≠ some (.num 2) := by
  refine ⟨rfl, rfl, rfl, rfl, rfl, rfl, ?_⟩
  intro h
  rw [show (transformValidation rootOverrideField).min = some (.num 3) from rfl] at h
  have h2 := Option.some.inj h
  injection h2 with h3
  exact absurd h3 (by norm_num)

/-- Claim C5 counterexample: on a valid slider field carrying both defaults the
transformed settings hold the imported defaultValue 5, not the imported
defaultChecked true — the slider branch re-applies defaultValue after
defaultChecked — contradicting precedence "regardless of the resolved type". -/
theorem slider_defaultValue_overrides_defaultChecked :
    (validate (.jval sliderBothDefaultsDoc)).isValid = true ∧
    getProp sliderBothDefaultsField "defaultValue" = .num 5 ∧
    getProp sliderBothDefaultsField "defaultChecked" = .bool true ∧
    (transformFieldSettings sliderBothDefaultsField
      (jsMapFieldType (getProp sliderBothDefaultsField "type"))).defaultValue
      = some (.num 5) ∧
    (transformFieldSettings sliderBothDefaultsField
      (jsMapFieldType (getProp sliderBothDefaultsField "type"))).defaultValue
      ≠ some (.bool true) := by
  refine ⟨rfl, rfl, rfl, rfl, ?_⟩
  intro h
  rw [show (transformFieldSettings sliderBothDefaultsField
      (jsMapFieldType (getProp sliderBothDefaultsField "type"))).defaultValue
      = some (.num 5) from rfl] at h
  exact JsVal.noConfusion (Option.some.inj h)

lemma jsStrictEq_str_iff (v : JsVal) (s : String) :
    jsStrictEq v (.str s) = true ↔ v = .str s := by
  cases v <;> simp [jsStrictEq]

lemma errIf_warnings (c : Bool) (p m : String) (st : VState) :
    (errIf c p m st).warnings = st.warnings := by
  cases c <;> rfl

lemma errIf_errors_mem {a : ValidationError} {c : Bool} {p m : String} {st : VState}
    (h : a ∈ st.errors) : a ∈ (errIf c p m st).errors := by
  cases c
  · exact h
  · exact List.mem_append_left _ h

lemma vfv_warnings (v : JsVal) (p : String) (st : VState) :
    (validateFieldValidation v p st).warnings = st.warnings := by
  unfold validateFieldValidation
  split
  · rfl
  · dsimp only
    rw [errIf_warnings, errIf_warnings, errIf_warnings, errIf_warnings]

lemma vfv_errors_mem {a : ValidationError} (v : JsVal) (p : String) (st : VState)
    (h : a ∈ st.errors) : a ∈ (validateFieldValidation v p st).errors := by
  unfold validateFieldValidation
  split
  · exact List.mem_append_left _ h
  · dsimp only
    exact errIf_errors_mem (errIf_errors_mem (errIf_errors_mem (errIf_errors_mem h)))

lemma sectionCheck_blank (field : JsVal) (path : String) (st : VState)
    (hty : getProp field "type" = .str "section" ∨ getProp field "type" = .str "statement")
    (hlb : getProp field "label" = .undefined ∨
           ∃ s, getProp field "label" = .str s ∧ jsTrim s = "") :
    sectionCheck field path (getProp field "type") st =
      .ok (addWarning (path ++ ".label") sectionLabelWarnMsg st) := by
  rcases hty with h | h <;> rw [h] <;> unfold sectionCheck <;>
    rcases hlb with hl | ⟨s, hl, hs⟩ <;> rw [hl]
  · rfl
  · by_cases hs0 : s = ""
    · subst hs0; rfl
    · simp only [jsStrictEq, truthy]
      rw [show (s != "") = true by simp [bne_iff_ne, hs0]]
      simp only [Bool.not_true, Bool.false_eq_true, if_false]
      rw [show (jsTrim s == "") = true by simp [hs]]
      rfl
  · rfl
  · by_cases hs0 : s = ""
    · subst hs0; rfl
    · simp only [jsStrictEq, truthy]
      rw [show (s != "") = true by simp [bne_iff_ne, hs0]]
      simp only [Bool.not_true, Bool.false_eq_true, if_false]
      rw [show (jsTrim s == "") = true by simp [hs]]
      rfl

lemma validateFieldTypeSpecific_section_blank (field : JsVal) (path : String) (st : VState)
    (hty : getProp field "type" = .str "section" ∨ getProp field "type" = .str "statement")
    (hlb : getProp field "label" = .undefined ∨
           ∃ s, getProp field "label" = .str s ∧ jsTrim s = "") :
    ∃ st', validateFieldTypeSpecific field path st = .ok st' ∧
      (∀ a, a ∈ st.errors → a ∈ st'.errors) ∧
      (⟨path ++ ".label", sectionLabelWarnMsg, .warning⟩ : ValidationError) ∈ st'.warnings := by
  unfold validateFieldTypeSpecific
  dsimp only
  have hopt : optionsChecks field path (getProp field "type") st = st := by
    rcases hty with h | h <;> rw [h] <;> rfl
  rw [hopt]
  have hnum : numberChecks field path (getProp field "type") st = st := by
    rcases hty with h | h <;> rw [h] <;> rfl
  rw [hnum]
  rw [sectionCheck_blank field path st hty hlb]
  dsimp only
  by_cases hv : truthy (getProp field "validation") = true
  · rw [if_pos hv]
    refine ⟨_, rfl, ?_, ?_⟩
    · intro a ha
      exact vfv_errors_mem _ _ _ ha
    · rw [vfv_warnings]
      exact List.mem_append_right _ (List.mem_singleton.mpr rfl)
  · rw [if_neg hv]
    refine ⟨_, rfl, ?_, ?_⟩
    · intro a ha; exact ha
    · exact List.mem_append_right _ (List.mem_singleton.mpr rfl)

/-- Claim C3, amended: a blank or missing label on a section/statement field
records the warning at fields[i].label AND the generic required-label error at
the same path (so such a document is invalid, not valid). -/
theorem section_blank_label_error_and_warning (kvs : List (String × JsVal))
    (path : String) (st : VState)
    (hty : getProp (.obj kvs) "type" = .str "section" ∨
           getProp (.obj kvs) "type" = .str "statement")
    (hlb : getProp (.obj kvs) "label" = .undefined ∨
           ∃ s, getProp (.obj kvs) "label" = .str s ∧ jsTrim s = "") :
    ∃ st', validateField (.obj kvs) path st = .ok st' ∧
      (⟨path ++ ".label", fieldLabelRequiredMsg, .error⟩ : ValidationError) ∈ st'.errors ∧
      (⟨path ++ ".label", sectionLabelWarnMsg, .warning⟩ : ValidationError) ∈ st'.warnings := by
  obtain ⟨st', heq, hmono, hwarn⟩ := validateFieldTypeSpecific_section_blank (.obj kvs) path
    (preFieldChecks (.obj kvs) path st) hty hlb
  refine ⟨st', heq, ?_, hwarn⟩
  apply hmono
  unfold preFieldChecks
  dsimp only
  apply errIf_errors_mem
  apply errIf_errors_mem
  apply errIf_errors_mem
  apply errIf_errors_mem
  have hc : strBlankOrMissing (getProp (.obj kvs) "label") = true := by
    rcases hlb with hl | ⟨s, hl, hs⟩
    · rw [hl]; rfl
    · rw [hl]
      show (jsTrim s == "") = true
      simp [hs]
  rw [hc]
  exact List.mem_append_right _ (List.mem_singleton.mpr rfl)

/-- Claim C3 amended, witnessed on the concrete blank-label section field. -/
theorem section_blank_label_error_and_warning_witness :
    ∃ st', validateField (.obj [("id", .str "f1"), ("type", .str "section"), ("label", .str "")])
        "fields[0]" ⟨[], []⟩ = .ok st' ∧
      (⟨"fields[0]" ++ ".label", fieldLabelRequiredMsg, .error⟩ : ValidationError) ∈ st'.errors ∧
      (⟨"fields[0]" ++ ".label", sectionLabelWarnMsg, .warning⟩ : ValidationError) ∈ st'.warnings :=
  section_blank_label_error_and_warning
    [("id", .str "f1"), ("type", .str "section"), ("label", .str "")]
    "fields[0]" ⟨[], []⟩ (Or.inl rfl) (Or.inr ⟨"", rfl, rfl⟩)

lemma preTypeSettings_allowMultiple (f : JsVal) : (preTypeSettings f).allowMultiple = none := by
  unfold preTypeSettings
  dsimp only
  repeat' split
  all_goals rfl

lemma preTypeSettings_defaultValue_checked (f : JsVal)
    (h : jsStrictEq (getProp f "defaultChecked") .undefined = false) :
    (preTypeSettings f).defaultValue = some (getProp f "defaultChecked") := by
  unfold preTypeSettings
  dsimp only
  rw [h]
  rfl

lemma transformFieldSettings_defaultValue (f t : JsVal)
    (ht : jsStrictEq t (.str "slider") = false) :
    (transformFieldSettings f t).defaultValue = (preTypeSettings f).defaultValue := by
  unfold transformFieldSettings
  dsimp only
  repeat' split
  all_goals (try rfl)
  all_goals simp_all

lemma transformFieldSettings_allowMultiple (f t : JsVal) :
    (transformFieldSettings f t).allowMultiple =
      (if jsStrictEq t (.str "select") && jsStrictEq (getProp f "type") (.str "multi_select")
       then some (.bool true) else none) := by
  have hpre := preTypeSettings_allowMultiple f
  cases t with
  | str s =>
    by_cases h1 : s = "textarea"
    · subst h1
      simp [transformFieldSettings, jsStrictEq, hpre, apply_ite FieldSettings.allowMultiple]
    · by_cases h2 : s = "number"
      · subst h2
        simp [transformFieldSettings, jsStrictEq, hpre, apply_ite FieldSettings.allowMultiple]
      · by_cases h3 : s = "slider"
        · subst h3
          simp [transformFieldSettings, jsStrictEq, hpre, apply_ite FieldSettings.allowMultiple]
        · by_cases h4 : s = "checkbox"
          · subst h4
            simp [transformFieldSettings, jsStrictEq, hpre,
              apply_ite FieldSettings.allowMultiple]
          · by_cases h5 : s = "select"
            · subst h5
              simp [transformFieldSettings, jsStrictEq, hpre,
                apply_ite FieldSettings.allowMultiple]
            · by_cases h6 : s = "statement"
              · subst h6
                simp [transformFieldSettings, jsStrictEq, hpre,
                  apply_ite FieldSettings.allowMultiple]
              · by_cases h7 : s = "rating"
                · subst h7
                  simp [transformFieldSettings, jsStrictEq, hpre,
                    apply_ite FieldSettings.allowMultiple]
                · by_cases h8 : s = "tags"
                  · subst h8
                    simp [transformFieldSettings, jsStrictEq, hpre,
                      apply_ite FieldSettings.allowMultiple]
                  · simp [transformFieldSettings, jsStrictEq, hpre,
                      apply_ite FieldSettings.allowMultiple, beq_iff_eq,
                      h1, h2, h3, h4, h5, h6, h7, h8]
  | null =>
    simp [transformFieldSettings, jsStrictEq, hpre, apply_ite FieldSettings.allowMultiple]
  | undefined =>
    simp [transformFieldSettings, jsStrictEq, hpre, apply_ite FieldSettings.allowMultiple]
  | bool b =>
    simp [transformFieldSettings, jsStrictEq, hpre, apply_ite FieldSettings.allowMultiple]
  | num q =>
    simp [transformFieldSettings, jsStrictEq, hpre, apply_ite FieldSettings.allowMultiple]
  | arr xs =>
    simp [transformFieldSettings, jsStrictEq, hpre, apply_ite FieldSettings.allowMultiple]
  | obj kvs =>
    simp [transformFieldSettings, jsStrictEq, hpre, apply_ite FieldSettings.allowMultiple]
  | protoMember n =>
    simp [transformFieldSettings, jsStrictEq, hpre, apply_ite FieldSettings.allowMultiple]

/-- Claim C5, amended: defaultChecked takes precedence over defaultValue for
every resolved field type except slider (where a present defaultValue is
re-applied after it by the slider branch). -/
theorem defaultChecked_precedence_nonslider (f t : JsVal)
    (hdc : jsStrictEq (getProp f "defaultChecked") .undefined = false)
    (ht : jsStrictEq t (.str "slider") = false) :
    (transformFieldSettings f t).defaultValue = some (getProp f "defaultChecked") := by
  rw [transformFieldSettings_defaultValue f t ht, preTypeSettings_defaultValue_checked f hdc]

/-- Claim C5 amended, witnessed on a text field with both defaults present. -/
theorem defaultChecked_precedence_nonslider_witness :
    (transformFieldSettings textBothDefaultsField (.str "text")).defaultValue
      = some (.bool true) :=
  (defaultChecked_precedence_nonslider textBothDefaultsField (.str "text") rfl rfl).trans rfl

lemma jsMapFieldType_str (s : String) : jsMapFieldType (.str s) = mapFieldType s := rfl

lemma transformField_ok_projections (freshId : String) (f : JsVal) (out : FormField)
    (hok : transformField freshId f = .ok out) :
    out.settings = transformFieldSettings f (jsMapFieldType (getProp f "type")) ∧
    out.type = jsMapFieldType (getProp f "type") := by
  unfold transformField at hok
  by_cases hn : nullish f = true
  · rw [if_pos hn] at hok
    exact absurd hok (by simp)
  · rw [if_neg hn] at hok
    cases ho : transformOptions (getProp f "options") with
    | error e => rw [ho] at hok; exact absurd hok (by simp)
    | ok o =>
      rw [ho] at hok
      rw [Except.ok.injEq] at hok
      subst hok
      cases o with
      | none => exact ⟨rfl, rfl⟩
      | some xs =>
        dsimp only
        split <;> exact ⟨rfl, rfl⟩

/-- Claim C7: the transformed settings carry allowMultiple = true exactly when
the original import type string is literally multi_select, and then the
resolved internal type is select (a plain select import never gets the flag). -/
theorem allowMultiple_iff_multi_select (freshId : String) (f : JsVal) (ty : String)
    (out : FormField)
    (hty : getProp f "type" = .str ty)
    (hok : transformField freshId f = .ok out) :
    ((out.settings.allowMultiple = some (.bool true)) ↔ ty = "multi_select") ∧
    (ty = "multi_select" → out.type = .str "select") := by
  obtain ⟨hset, htype⟩ := transformField_ok_projections freshId f out hok
  rw [hty, jsMapFieldType_str] at hset htype
  constructor
  · rw [hset, transformFieldSettings_allowMultiple, hty]
    constructor
    · intro h
      by_cases hc : (jsStrictEq (mapFieldType ty) (.str "select") &&
          jsStrictEq (.str ty) (.str "multi_select")) = true
      · have h2 := Bool.and_elim_right hc
        rw [show jsStrictEq (.str ty) (.str "multi_select") = (ty == "multi_select") from rfl] at h2
        exact beq_iff_eq.mp h2
      · rw [if_neg hc] at h
        exact absurd h (by simp)
    · intro h
      subst h
      rfl
  · intro h
    subst h
    rw [htype]
    rfl

/-- The transform of `multiSelectField`. -/
def multiSelectOut : FormField :=
  ⟨.str "p", .str "select", .str "Pick", .undefined, .undefined, .bool false,
   emptyFieldValidation,
   { emptyFieldSettings with allowMultiple := some (.bool true) },
   some [.str "A", .str "B"]⟩

/-- Claim C7, witnessed on the spec's multi_select scenario field (and the
plain-select contrast, which never receives the flag). -/
theorem allowMultiple_iff_multi_select_witness :
    ((transformField "g" multiSelectField).map (fun o => o.settings.allowMultiple)
       = .ok (some (.bool true))) ∧
    ((transformField "g" multiSelectField).map (fun o => o.type) = .ok (.str "select")) ∧
    ((transformField "g" plainSelectField).map (fun o => o.settings.allowMultiple)
       = .ok none) := by
  have h1 := allowMultiple_iff_multi_select "g" multiSelectField "multi_select"
    multiSelectOut rfl rfl
  refine ⟨?_, ?_, rfl⟩
  · show Except.ok multiSelectOut.settings.allowMultiple = .ok (some (.bool true))
    rw [(h1.1).mpr rfl]
  · show Except.ok multiSelectOut.type = .ok (.str "select")
    rw [h1.2 rfl]

lemma transformValidation_minLength (f : JsVal) :
    (transformValidation f).minLength =
      (if truthy (getProp (getProp f "validation") "minLength")
       then some (getProp (getProp f "validation") "minLength") else none) := by
  simp [transformValidation, emptyFieldValidation, apply_ite FieldValidation.minLength]

lemma transformValidation_maxLength (f : JsVal) :
    (transformValidation f).maxLength =
      (if truthy (getProp (getProp f "validation") "maxLength")
       then some (getProp (getProp f "validation") "maxLength") else none) := by
  simp [transformValidation, emptyFieldValidation, apply_ite FieldValidation.maxLength]

lemma transformValidation_pattern (f : JsVal) :
    (transformValidation f).pattern =
      (if truthy (getProp (getProp f "validation") "pattern")
       then some (getProp (getProp f "validation") "pattern") else none) := by
  simp [transformValidation, emptyFieldValidation, apply_ite FieldValidation.pattern]

lemma transformValidation_min (f : JsVal) :
    (transformValidation f).min =
      (if !(jsStrictEq (getProp f "min") .undefined) then some (getProp f "min")
       else if truthy (getProp (getProp f "validation") "min")
            then some (getProp (getProp f "validation") "min") else none) := by
  simp [transformValidation, emptyFieldValidation, apply_ite FieldValidation.min]

lemma transformValidation_max (f : JsVal) :
    (transformValidation f).max =
      (if !(jsStrictEq (getProp f "max") .undefined) then some (getProp f "max")
       else if truthy (getProp (getProp f "validation") "max")
            then some (getProp (getProp f "validation") "max") else none) := by
  simp [transformValidation, emptyFieldValidation, apply_ite FieldValidation.max]

lemma jsStrictEq_undefined_iff (v : JsVal) :
    jsStrictEq v .undefined = true ↔ v = .undefined := by
  cases v <;> simp [jsStrictEq]

/-- Claim C4, amended: a key of the import's validation object is copied to
the output exactly when its value is truthy — a falsy value such as 0 (or an
empty pattern string) is dropped — except that for min and max a root-level
min/max defined on the field itself is copied instead, overriding whatever
the validation object holds. -/
theorem validation_truthy_keys_copied (f : JsVal) :
    (∀ w, getProp (getProp f "validation") "minLength" = w →
       (truthy w = true → (transformValidation f).minLength = some w) ∧
       (truthy w = false → (transformValidation f).minLength = none)) ∧
    (∀ w, getProp (getProp f "validation") "maxLength" = w →
       (truthy w = true → (transformValidation f).maxLength = some w) ∧
       (truthy w = false → (transformValidation f).maxLength = none)) ∧
    (∀ w, getProp (getProp f "validation") "pattern" = w →
       (truthy w = true → (transformValidation f).pattern = some w) ∧
       (truthy w = false → (transformValidation f).pattern = none)) ∧
    (∀ w, getProp (getProp f "validation") "min" = w → getProp f "min" = .undefined →
       (truthy w = true → (transformValidation f).min = some w) ∧
       (truthy w = false → (transformValidation f).min = none)) ∧
    (∀ w, getProp (getProp f "validation") "max" = w → getProp f "max" = .undefined →
       (truthy w = true → (transformValidation f).max = some w) ∧
       (truthy w = false → (transformValidation f).max = none)) ∧
    (getProp f "min" ≠ .undefined →
       (transformValidation f).min = some (getProp f "min")) ∧
    (getProp f "max" ≠ .undefined →
       (transformValidation f).max = some (getProp f "max")) := by
  refine ⟨?_, ?_, ?_, ?_, ?_, ?_, ?_⟩
  · intro w hw
    refine ⟨fun htr => ?_, fun htr => ?_⟩
    · rw [transformValidation_minLength, hw, if_pos htr]
    · rw [transformValidation_minLength, hw, if_neg (by simp [htr])]
  · intro w hw
    refine ⟨fun htr => ?_, fun htr => ?_⟩
    · rw [transformValidation_maxLength, hw, if_pos htr]
    · rw [transformValidation_maxLength, hw, if_neg (by simp [htr])]
  · intro w hw
    refine ⟨fun htr => ?_, fun htr => ?_⟩
    · rw [transformValidation_pattern, hw, if_pos htr]
    · rw [transformValidation_pattern, hw, if_neg (by simp [htr])]
  · intro w hw hroot
    refine ⟨fun htr => ?_, fun htr => ?_⟩
    · rw [transformValidation_min, hroot, hw]
      simp [jsStrictEq, htr]
    · rw [transformValidation_min, hroot, hw]
      simp [jsStrictEq, htr]
  · intro w hw hroot
    refine ⟨fun htr => ?_, fun htr => ?_⟩
    · rw [transformValidation_max, hroot, hw]
      simp [jsStrictEq, htr]
    · rw [transformValidation_max, hroot, hw]
      simp [jsStrictEq, htr]
  · intro hroot
    have hb : jsStrictEq (getProp f "min") JsVal.undefined = false := by
      cases hjs : jsStrictEq (getProp f "min") JsVal.undefined with
      | false => rfl
      | true => exact absurd ((jsStrictEq_undefined_iff _).mp hjs) hroot
    rw [transformValidation_min, hb]
    rfl
  · intro hroot
    have hb : jsStrictEq (getProp f "max") JsVal.undefined = false := by
      cases hjs : jsStrictEq (getProp f "max") JsVal.undefined with
      | false => rfl
      | true => exact absurd ((jsStrictEq_undefined_iff _).mp hjs) hroot
    rw [transformValidation_max, hb]
    rfl

/-- Claim C4 amended, witnessed in both directions on all five keys (truthy
values copied, falsy values dropped) and on the root-level min/max override. -/
theorem validation_truthy_keys_copied_witness :
    (transformValidation truthyValidationField).minLength = some (.num 3) ∧
    (transformValidation truthyValidationField).maxLength = some (.num 9) ∧
    (transformValidation truthyValidationField).pattern = some (.str "a+") ∧
    (transformValidation truthyValidationField).min = some (.num 1) ∧
    (transformValidation truthyValidationField).max = some (.num 7) ∧
    (transformValidation falsyValidationField).minLength = none ∧
    (transformValidation falsyValidationField).maxLength = none ∧
    (transformValidation falsyValidationField).pattern = none ∧
    (transformValidation falsyValidationField).min = none ∧
    (transformValidation falsyValidationField).max = none ∧
    (transformValidation rootOverrideField).min = some (.num 3) ∧
    (transformValidation rootOverrideField).max = some (.num 4) :=
  ⟨((validation_truthy_keys_copied truthyValidationField).1 _ rfl).1 rfl,
   ((validation_truthy_keys_copied truthyValidationField).2.1 _ rfl).1 rfl,
   ((validation_truthy_keys_copied truthyValidationField).2.2.1 _ rfl).1 rfl,
   ((validation_truthy_keys_copied truthyValidationField).2.2.2.1 _ rfl rfl).1 rfl,
   ((validation_truthy_keys_copied truthyValidationField).2.2.2.2.1 _ rfl rfl).1 rfl,
   ((validation_truthy_keys_copied falsyValidationField).1 _ rfl).2 rfl,
   ((validation_truthy_keys_copied falsyValidationField).2.1 _ rfl).2 rfl,
   ((validation_truthy_keys_copied falsyValidationField).2.2.1 _ rfl).2 rfl,
   ((validation_truthy_keys_copied falsyValidationField).2.2.2.1 _ rfl rfl).2 rfl,
   ((validation_truthy_keys_copied falsyValidationField).2.2.2.2.1 _ rfl rfl).2 rfl,
   (validation_truthy_keys_copied rootOverrideField).2.2.2.2.2.1 (by
     intro h
     rw [show getProp rootOverrideField "min" = .num 3 from rfl] at h
     exact JsVal.noConfusion h),
   (validation_truthy_keys_copied rootOverrideField).2.2.2.2.2.2 (by
     intro h
     rw [show getProp rootOverrideField "max" = .num 4 from rfl] at h
     exact JsVal.noConfusion h)⟩

/-- Claim C9: a successful transform yields a schema with exactly one block,
that block's settings fixed to showStepNumber false / layout single / spacing
normal, the block's fields equal to the schema's flat fields list (the
transformed imported fields in import order), and logic equal to the default
schema's (empty) logic. -/
theorem schema_single_block_assembly (blockId : String) (fieldIds : Nat → String)
    (v : JsVal) (fs : FormSchema)
    (hok : createFormSchema blockId fieldIds v = .ok fs) :
    ∃ b, fs.blocks = [b] ∧
      b.settings = ⟨false, "single", "normal"⟩ ∧
      b.fields = fs.fields ∧
      fs.logic = [] ∧
      ∀ xs, getProp v "fields" = .arr xs →
        mapFieldsList fieldIds 0 xs = .ok fs.fields := by
  unfold createFormSchema at hok
  by_cases hn : nullish v = true
  · rw [if_pos hn] at hok
    exact absurd hok (by simp)
  · rw [if_neg hn] at hok
    cases hf : fieldsMapStep fieldIds v with
    | error e => rw [hf] at hok; exact absurd hok (by simp)
    | ok tfs =>
      rw [hf] at hok
      rw [Except.ok.injEq] at hok
      subst hok
      refine ⟨_, rfl, rfl, rfl, rfl, ?_⟩
      intro xs hxs
      unfold fieldsMapStep at hf
      rw [hxs] at hf
      exact hf

/-- Claim C9, witnessed on a concrete one-field valid schema. -/
theorem schema_single_block_assembly_witness :
    ∃ b, simpleSchemaOut.blocks = [b] ∧
      b.settings = ⟨false, "single", "normal"⟩ ∧
      b.fields = simpleSchemaOut.fields ∧
      simpleSchemaOut.logic = [] ∧
      ∀ xs, getProp simpleDoc "fields" = .arr xs →
        mapFieldsList (fun n => "gid" ++ toString n) 0 xs = .ok simpleSchemaOut.fields :=
  schema_single_block_assembly "b" (fun n => "gid" ++ toString n) simpleDoc simpleSchemaOut rfl

lemma lookup_val_mem {l : List (String × String)} {t v : String}
    (h : l.lookup t = some v) : v ∈ l.map (fun p => p.2) := by
  induction l with
  | nil => simp [List.lookup] at h
  | cons p rest ih =>
    obtain ⟨k, w⟩ := p
    rw [List.lookup] at h
    split at h
    · injection h with h2
      subst h2
      exact List.mem_cons_self _ _
    · exact List.mem_cons_of_mem _ (ih h)

lemma SUPPORTED_values_nonempty (t internal : String)
    (h : SUPPORTED_FIELD_TYPES.lookup t = some internal) : internal ≠ "" := by
  intro hc
  subst hc
  exact absurd (lookup_val_mem h) (by decide)

/-- Claim C10 counterexample: "toString" is not a key of the supported-type
table, yet mapFieldType does not return it unchanged — the bracket lookup
walks the prototype chain of the object literal and yields the truthy
inherited Object.prototype.toString member, so the fallback to the import
type never engages. -/
theorem mapFieldType_toString_not_verbatim :
    SUPPORTED_FIELD_TYPES.lookup "toString" = none ∧
    mapFieldType "toString" = .protoMember "toString" ∧
    mapFieldType "toString" ≠ .str "toString" := by
  refine ⟨rfl, rfl, ?_⟩
  intro h
  rw [show mapFieldType "toString" = .protoMember "toString" from rfl] at h
  exact JsVal.noConfusion h

/-- Claim C10, amended: mapFieldType returns the table's internal name when t
is a table key; on a non-key it returns t unchanged unless t names an
inherited Object.prototype member, in which case the truthy inherited member
is returned instead of t; it never fails or signals the unsupported type; and
the transformer, which performs no re-validation, carries an unsupported type
string verbatim into the output field exactly when it is neither a table key
nor a prototype member name. -/
theorem mapFieldType_total_and_transform_verbatim :
    (∀ t internal, SUPPORTED_FIELD_TYPES.lookup t = some internal →
       mapFieldType t = .str internal) ∧
    (∀ t, SUPPORTED_FIELD_TYPES.lookup t = none →
       OBJECT_PROTOTYPE_MEMBERS.contains t = false → mapFieldType t = .str t) ∧
    (∀ t, SUPPORTED_FIELD_TYPES.lookup t = none →
       OBJECT_PROTOTYPE_MEMBERS.contains t = true → mapFieldType t = .protoMember t) ∧
    (∀ (freshId : String) (f : JsVal) (ty : String) (out : FormField),
       getProp f "type" = .str ty → SUPPORTED_FIELD_TYPES.lookup ty = none →
       OBJECT_PROTOTYPE_MEMBERS.contains ty = false →
       transformField freshId f = .ok out → out.type = .str ty) := by
  have hmap_own : ∀ t internal, SUPPORTED_FIELD_TYPES.lookup t = some internal →
      mapFieldType t = .str internal := by
    intro t internal h
    have hne := SUPPORTED_values_nonempty t internal h
    unfold mapFieldType tableLookup
    rw [h]
    dsimp only
    rw [if_pos (by simp only [truthy, bne_iff_ne, ne_eq]; exact hne)]
  have hmap_miss : ∀ t, SUPPORTED_FIELD_TYPES.lookup t = none →
      OBJECT_PROTOTYPE_MEMBERS.contains t = false → mapFieldType t = .str t := by
    intro t h hp
    unfold mapFieldType tableLookup
    rw [h, hp]
    rfl
  refine ⟨hmap_own, hmap_miss, ?_, ?_⟩
  · intro t h hp
    unfold mapFieldType tableLookup
    rw [h, hp]
    rfl
  · intro freshId f ty out hty hlk hp hok
    obtain ⟨_, htype⟩ := transformField_ok_projections freshId f out hok
    rw [hty, jsMapFieldType_str] at htype
    rw [htype, hmap_miss ty hlk hp]

/-- Claim C10 amended, witnessed on a table key, a genuine miss, a prototype
member name, and an unsupported type carried verbatim through the transformer. -/
theorem mapFieldType_total_and_transform_verbatim_witness :
    mapFieldType "short_text" = .str "text" ∧
    mapFieldType "foo" = .str "foo" ∧
    mapFieldType "toString" = .protoMember "toString" ∧
    unsupportedTypeOut.type = .str "foo" :=
  ⟨mapFieldType_total_and_transform_verbatim.1 "short_text" "text" rfl,
   mapFieldType_total_and_transform_verbatim.2.1 "foo" rfl rfl,
   mapFieldType_total_and_transform_verbatim.2.2.1 "toString" rfl rfl,
   mapFieldType_total_and_transform_verbatim.2.2.2 "g" unsupportedTypeField "foo"
     unsupportedTypeOut rfl rfl rfl rfl⟩

end ImportPipeline
